import Mathlib

/-!
A shallow embedding of the `deno_jamf_school` client library
(`src/internal/api.ts`, `src/internal/device.ts`, `src/internal/app.ts`),
together with proofs about its input validation, query/body serialization,
and the domain-object methods of `Device` and `App`.

Conventions of the embedding:
* JS numbers used as IDs are modelled as `Int` (NaN / ±Infinity / non-integral
  numbers, which the source's `Number.isFinite && Number.isSafeInteger` guard
  also rejects, are outside the `Int` embedding).
* Decimal strings are parsed to exact rationals (`ℚ`); IEEE-754 rounding of
  `parseFloat` is elided.
* The HTTP layer (`ky` plus the afterResponse hooks) is an oracle
  `Transport : Request → Except Err RespData`: non-2xx statuses surface as
  `Err.auth` / `Err.permission` / `Err.api` per the hooks, a 2xx response is
  delivered in already-typed form, and a response whose shape does not match
  the route's schema is turned into `Err.schema` by the API method, mirroring
  `schemas.assertValid`.
* `async` methods are modelled as functions of the oracle returning the list
  of network requests issued together with their `Except` result (and, for
  domain-object methods, the final snapshot).
-/

/-- One JS value that can appear in a query-parameter object handed to
`toSearchParams` (`undefined`, `null`, a boolean, a number, or a string). -/
inductive QueryVal
  | undefined
  | null
  | bool (b : Bool)
  | num (n : Int)
  | str (s : String)
deriving DecidableEq, Repr

/-- `val != null` is false exactly for JS `null` and `undefined`. -/
def QueryVal.isNullish : QueryVal → Bool
  | .undefined => true
  | .null => true
  | _ => false

/-- The string a kept entry is serialized to: booleans are first cast to their
numeric representation (`Number(true) = 1`, `Number(false) = 0`) and then
stringified; numbers and strings go through `String(val)`. -/
def QueryVal.serialize : QueryVal → String
  | .undefined => "undefined"
  | .null => "null"
  | .bool b => if b then "1" else "0"
  | .num n => toString n
  | .str s => s

/-- `toSearchParams` (src/internal/api.ts): convert an object to search
params, skipping `undefined` and `null` entries; booleans are cast to their
numeric representation; if no entries remain after filtering, `undefined`
(here `none`) is returned, so no query string is attached at all. -/
def toSearchParams (data : List (String × QueryVal)) :
    Option (List (String × String)) :=
  let entries := (data.filter (fun p => !p.2.isNullish)).map
    (fun p => (p.1, p.2.serialize))
  if entries.isEmpty then none else some entries

/-- A character allowed by the UDID pattern `[0-9a-f-]` with the `i` flag. -/
def isUDIDChar (c : Char) : Bool :=
  c.isDigit || ('a' ≤ c && c ≤ 'f') || ('A' ≤ c && c ≤ 'F') || c == '-'

/-- `isValidUDID` (src/internal/api.ts): the string matches
`/^[0-9a-f\-]+$/i`, i.e. it is nonempty and consists only of hexadecimal
characters and dashes (either case). -/
def isValidUDID (udid : String) : Bool :=
  !udid.data.isEmpty && udid.data.all isUDIDChar

/-- `isValidID` (src/internal/api.ts): `Number.isFinite(id) &&
Number.isSafeInteger(id) && id >= 0`.  On the `Int` embedding this is:
non-negative and at most `2^53 - 1` (the safe-integer bound). -/
def isValidID (id : Int) : Bool :=
  decide (0 ≤ id) && decide (id ≤ 2 ^ 53 - 1)

/-- A JSON value appearing in a request body sent by the embedded routes. -/
inductive JVal
  | num (n : Int)
  | str (s : String)
  | bool (b : Bool)
  | strArr (xs : List String)
deriving DecidableEq, Repr

/-- Look up a key in a serialized JSON object body. -/
def jLookup (body : List (String × JVal)) (key : String) : Option JVal :=
  (body.find? (fun p => p.1 == key)).map (fun p => p.2)

/-- One HTTP request as issued by the API surface: method, path relative to
the prefix URL, the (already serialized) query string, and the JSON body.
A key whose JS value is `undefined` is dropped by `JSON.stringify` and is
therefore absent from `body`. -/
structure Request where
  method : String
  path : String
  query : Option (List (String × String)) := none
  body : Option (List (String × JVal)) := none
deriving DecidableEq, Repr

/-- The failure taxonomy of the library (§7 of the documentation):
`assertion` is a fatal `AssertionError` from input validation (deno std
`assert`), `auth` is a 401 `AuthError`, `permission` a 405 `PermissionError`,
`api` any other non-2xx `APIError`, `schema` a response-shape mismatch
(`SchemaError`), and `generic` a plain thrown `Error`. -/
inductive Err
  | assertion (msg : String)
  | auth
  | permission (meth : String) (endpoint : String)
  | api (status : Nat)
  | schema (route : String)
  | generic (msg : String)
deriving DecidableEq, Repr

instance {ε α : Type} [DecidableEq ε] [DecidableEq α] :
    DecidableEq (Except ε α) := fun a b =>
  match a, b with
  | .ok x, .ok y =>
    if h : x = y then .isTrue (by rw [h]) else .isFalse (by simp [h])
  | .ok _, .error _ => .isFalse (by simp)
  | .error _, .ok _ => .isFalse (by simp)
  | .error x, .error y =>
    if h : x = y then .isTrue (by rw [h]) else .isFalse (by simp [h])

/-- The result of one API-surface method: the network requests it issued (in
order) and its value or error. -/
structure Outcome (α : Type) where
  calls : List Request
  result : Except Err α
deriving DecidableEq, Repr

/-- Owner sub-record of a device record (GET /devices element). -/
structure DeviceOwnerData where
  id : Int
  locationId : Int
  name : String
deriving DecidableEq, Repr

/-- One element of a device record's embedded `apps` list. -/
structure DeviceAppData where
  name : String
  identifier : String
  version : String
  vendor : String
  icon : String
deriving DecidableEq, Repr

/-- Region sub-record: the name really is under a key called `string`, and
`coordinates` is an optional property in the route schema. -/
structure RegionData where
  string : String
  coordinates : Option String
deriving DecidableEq, Repr

/-- The fields of a `GET /devices` device record that the embedded operations
read (`DeviceData` in src/internal/device.ts); scalar fields never consulted
by any embedded method are elided. -/
structure DeviceData where
  UDID : String
  locationId : Int
  serialNumber : String
  name : String
  isManaged : Bool
  isSupervised : Bool
  assetTag : String
  notes : String
  owner : DeviceOwnerData
  groups : List String
  region : RegionData
  apps : Option (List DeviceAppData)
deriving DecidableEq, Repr

/-- An app record (`AppData` in src/internal/app.ts), with the fields the
`App` class reads. -/
structure AppData where
  id : Int
  locationId : Int
  adamId : Option Int
  bundleId : String
  isBook : Bool
  isDeleted : Option Bool
  name : String
  version : String
deriving DecidableEq, Repr

/-- A typed 2xx response payload as delivered by the transport; the API
method checks the variant against its route's schema (`assertValid`). -/
inductive RespData
  | devices (xs : List DeviceData)
  | device (d : DeviceData)
  | app (a : AppData)
  | apps (xs : List AppData)
  | ack
deriving DecidableEq, Repr

/-- The network oracle: `ky` with the auth header plus the afterResponse
hooks (401 → `Err.auth`, 405 → `Err.permission`, other non-2xx →
`Err.api`). -/
def Transport : Type := Request → Except Err RespData

/-- Issue one request and classify its 2xx payload: the shared tail of every
API-surface method (`await this.http...json()` followed by
`schemas.assertValid`). -/
def issue {α : Type} (req : Request) (t : Transport)
    (f : RespData → Except Err α) : Outcome α :=
  ⟨[req],
   match t req with
   | .error e => .error e
   | .ok r => f r⟩

/-- Error thrown by `assertValidUDID` (src/internal/api.ts). -/
def invalidUDIDErr (udid : String) : Err :=
  .assertion ("Invalid UDID: " ++ udid)

/-- Error thrown by `assertValidID` (src/internal/api.ts). -/
def invalidIDErr : Err :=
  .assertion "Invalid ID: must be a positive integer."

/-- Options of `API.getDevice` (`APIGetDeviceOptions`). -/
structure APIGetDeviceOptions where
  includeApps : Option Bool := none
deriving DecidableEq, Repr

/-- Options of `API.getDevices` (`APIGetDevicesOptions`). -/
structure APIGetDevicesOptions where
  groupIds : Option (List Int) := none
  ownerGroupIds : Option (List Int) := none
  isOwned : Option Bool := none
  ownerId : Option Int := none
  ownerName : Option String := none
  isManaged : Option Bool := none
  modelIdentifier : Option String := none
  locationId : Option Int := none
  isSupervised : Option Bool := none
  isTrashed : Option Bool := none
  assetTag : Option String := none
  serialNumber : Option String := none
  enrollmentType : Option String := none
  includeApps : Option Bool := none
deriving DecidableEq, Repr

/-- Options of `API.moveDevice` / `API.moveDevices` (`onlyDevice?`). -/
structure APIMoveDevicesOptions where
  onlyDevice : Option Bool := none
deriving DecidableEq, Repr

/-- The body of `API.updateDevice` used by the `Device` setters
(`APIDeviceData`, restricted to the fields the embedded methods send). -/
structure APIDeviceData where
  assetTag : Option String := none
  notes : Option String := none
deriving DecidableEq, Repr

/-- Lift an optional JS value into a `QueryVal` (`undefined` when absent). -/
def optQ {α : Type} (o : Option α) (f : α → QueryVal) : QueryVal :=
  match o with
  | some a => f a
  | none => .undefined

/-- `options.groupIds?.join(",")` — a comma-joined number list, or
`undefined` when the option is absent. -/
def joinIds (o : Option (List Int)) : QueryVal :=
  optQ o (fun xs => .str (String.intercalate "," (xs.map toString)))

/-- The query-parameter object literal of `API.getDevices`, in source order.
`includeApps: options.includeApps || undefined` collapses `false` to
`undefined`. -/
def getDevicesQuery (o : APIGetDevicesOptions) : List (String × QueryVal) :=
  [("groups", joinIds o.groupIds),
   ("ownergroups", joinIds o.ownerGroupIds),
   ("hasOwner", optQ o.isOwned .bool),
   ("owner", optQ o.ownerId .num),
   ("name", optQ o.ownerName .str),
   ("managed", optQ o.isManaged .bool),
   ("model", optQ o.modelIdentifier .str),
   ("location", optQ o.locationId .num),
   ("supervised", optQ o.isSupervised .bool),
   ("inTrash", optQ o.isTrashed .bool),
   ("assettag", optQ o.assetTag .str),
   ("serialnumber", optQ o.serialNumber .str),
   ("enrollType", optQ o.enrollmentType .str),
   ("includeApps", if o.includeApps = some true then .bool true else .undefined)]

/-- `API.getDevices`: GET `/devices` with the query of `getDevicesQuery`;
the response is validated against `GET /devices` and its `devices` field is
returned. -/
def API.getDevices (options : APIGetDevicesOptions) (t : Transport) :
    Outcome (List DeviceData) :=
  let req : Request :=
    { method := "GET", path := "devices",
      query := toSearchParams (getDevicesQuery options) }
  issue req t (fun r =>
    match r with
    | .devices xs => .ok xs
    | _ => .error (.schema "GET /devices"))

/-- `API.getDevice`: validates the UDID, then GET `/devices/:udid`.  Unlike
other booleans, `includeApps` has to be the string `"true"`; the falsy branch
of `options.includeApps ? "true" : undefined` produces `undefined`, which
`toSearchParams` then drops. -/
def API.getDevice (udid : String) (options : APIGetDeviceOptions)
    (t : Transport) : Outcome DeviceData :=
  if !isValidUDID udid then ⟨[], .error (invalidUDIDErr udid)⟩
  else
    let req : Request :=
      { method := "GET", path := "devices/" ++ udid,
        query := toSearchParams
          [("includeApps",
            if options.includeApps = some true then .str "true" else .undefined)] }
    issue req t (fun r =>
      match r with
      | .device d => .ok d
      | _ => .error (.schema "GET /devices/:udid"))

/-- `API.getApps`: GET `/apps`, returning the `apps` field. -/
def API.getApps (t : Transport) : Outcome (List AppData) :=
  let req : Request := { method := "GET", path := "apps" }
  issue req t (fun r =>
    match r with
    | .apps xs => .ok xs
    | _ => .error (.schema "GET /apps"))

/-- `API.getApp`: validates the ID, then GET `/apps/:id`, returning the whole
validated payload (the app record). -/
def API.getApp (id : Int) (t : Transport) : Outcome AppData :=
  if !isValidID id then ⟨[], .error invalidIDErr⟩
  else
    let req : Request := { method := "GET", path := "apps/" ++ toString id }
    issue req t (fun r =>
      match r with
      | .app a => .ok a
      | _ => .error (.schema "GET /apps/:id"))

/-- `API.setDeviceOwner`: validates the UDID and user ID, then PUT
`/devices/:udid/owner` with body `{ user: userId }`. -/
def API.setDeviceOwner (udid : String) (userId : Int) (t : Transport) :
    Outcome RespData :=
  if !isValidUDID udid then ⟨[], .error (invalidUDIDErr udid)⟩
  else if !isValidID userId then ⟨[], .error invalidIDErr⟩
  else
    let req : Request :=
      { method := "PUT", path := "devices/" ++ udid ++ "/owner",
        body := some [("user", .num userId)] }
    issue req t .ok

/-- The serialized body of `API.moveDevice`: `JSON.stringify` drops the
`onlyDevice` key when `options?.onlyDevice` is `undefined`. -/
def moveDevicePayload (locationId : Int) (onlyDevice : Option Bool) :
    List (String × JVal) :=
  ("locationId", .num locationId) ::
    (match onlyDevice with
     | some b => [("onlyDevice", .bool b)]
     | none => [])

/-- `API.moveDevice`: validates the UDID and location ID, then PUT
`/devices/:udid/migrate`. -/
def API.moveDevice (udid : String) (locationId : Int)
    (options : Option APIMoveDevicesOptions) (t : Transport) :
    Outcome RespData :=
  if !isValidUDID udid then ⟨[], .error (invalidUDIDErr udid)⟩
  else if !isValidID locationId then ⟨[], .error invalidIDErr⟩
  else
    let req : Request :=
      { method := "PUT", path := "devices/" ++ udid ++ "/migrate",
        body := some (moveDevicePayload locationId
          (options.bind (fun o => o.onlyDevice))) }
    issue req t .ok

/-- The serialized body of `API.moveDevices` (`{ locationId, udids,
onlyDevice }`, with the `onlyDevice` key dropped when `undefined`). -/
def moveDevicesPayload (locationId : Int) (udids : List String)
    (onlyDevice : Option Bool) : List (String × JVal) :=
  ("locationId", .num locationId) :: ("udids", .strArr udids) ::
    (match onlyDevice with
     | some b => [("onlyDevice", .bool b)]
     | none => [])

/-- The single request issued by a validated `API.moveDevices` call. -/
def moveDevicesRequest (devices : List String) (locationId : Int)
    (options : Option APIMoveDevicesOptions) : Request :=
  { method := "PUT", path := "devices/migrate",
    body := some (moveDevicesPayload locationId devices
      (options.bind (fun o => o.onlyDevice))) }

/-- `API.moveDevices`: asserts (in source order) that `locationId` is a
valid ID, that the array is nonempty, that it has at most 20 elements, and
that each element is a valid UDID; only then is PUT `/devices/migrate`
issued. -/
def API.moveDevices (devices : List String) (locationId : Int)
    (options : Option APIMoveDevicesOptions) (t : Transport) :
    Outcome RespData :=
  if !isValidID locationId then ⟨[], .error invalidIDErr⟩
  else if !decide (devices.length > 0) then ⟨[], .error (.assertion "")⟩
  else if !decide (devices.length ≤ 20) then ⟨[], .error (.assertion "")⟩
  else
    match devices.find? (fun u => !isValidUDID u) with
    | some u => ⟨[], .error (invalidUDIDErr u)⟩
    | none =>
      let req := moveDevicesRequest devices locationId options
      issue req t .ok

/-- The serialized body of `API.updateDevice` for the partial
`APIDeviceData` records the `Device` setters send. -/
def updateDevicePayload (data : APIDeviceData) : List (String × JVal) :=
  (match data.assetTag with
   | some s => [("assetTag", .str s)]
   | none => []) ++
    (match data.notes with
     | some s => [("notes", .str s)]
     | none => [])

/-- `API.updateDevice`: validates the UDID, then POST
`/devices/:udid/details`. -/
def API.updateDevice (udid : String) (data : APIDeviceData) (t : Transport) :
    Outcome RespData :=
  if !isValidUDID udid then ⟨[], .error (invalidUDIDErr udid)⟩
  else
    let req : Request :=
      { method := "POST", path := "devices/" ++ udid ++ "/details",
        body := some (updateDevicePayload data) }
    issue req t .ok

/-- Whether a failure is of the `APIError` class of recoverable remote
failures (`AuthError`, `PermissionError`, `APIError`), as opposed to the
fatal validation / schema / plain errors. -/
def Err.isAPIErrorClass : Err → Bool
  | .auth => true
  | .permission _ _ => true
  | .api _ => true
  | _ => false

/-- Modelled from the spec: `suppressAPIError` (src/internal/api_error.ts) is
not among the provided sources; per §7 of the documentation, best-effort
traversals "catch only recoverable remote failures
(AuthError/PermissionError/APIError-class) and substitute an empty/null
result — they never catch Validation/SchemaError, which remain fatal".
So: return the fallback for an `APIError`-class failure, rethrow anything
else. -/
def suppressAPIError {α : Type} (fallback : α) (e : Err) : Except Err α :=
  if e.isAPIErrorClass then .ok fallback else .error e

/-- The result of one domain-object method: the requests issued, the value or
error, and the object's snapshot after the call. -/
structure StateOutcome (σ : Type) (α : Type) where
  calls : List Request
  result : Except Err α
  state : σ
deriving DecidableEq, Repr

/-- `numPartMatch cs` holds exactly when `cs` matches one side of the
coordinate regex, `[+-]?\d{1,3}(\.\d{1,15})?` anchored on both ends. -/
def numPartMatch (cs : List Char) : Bool :=
  let cs := match cs with
    | c :: rest => if c == '+' || c == '-' then rest else c :: rest
    | [] => []
  let intPart := cs.takeWhile Char.isDigit
  let rest := cs.dropWhile Char.isDigit
  decide (1 ≤ intPart.length) && decide (intPart.length ≤ 3) &&
    (match rest with
     | [] => true
     | '.' :: frac =>
       decide (1 ≤ frac.length) && decide (frac.length ≤ 15) &&
         frac.all Char.isDigit
     | _ => false)

/-- Split at the string's unique comma.  Since neither side of the `coords`
regex can contain a comma, a successful match forces exactly one comma, with
group 1 before it and group 3 after it. -/
def splitAtComma (cs : List Char) : Option (List Char × List Char) :=
  match cs with
  | [] => none
  | ',' :: rest => if rest.contains ',' then none else some ([], rest)
  | c :: rest => (splitAtComma rest).map (fun p => (c :: p.1, p.2))

/-- `str.match(coords)` for the region-coordinate regex
`^([+-]?\d{1,3}(?:\.\d{1,15})?),([+-]?\d{1,3}(?:\.\d{1,15})?)$`
(src/internal/device.ts): the two capture groups on success, `none`
(JS `null`) when the string does not match. -/
def coordsMatch (cs : List Char) : Option (List Char × List Char) :=
  match splitAtComma cs with
  | some (a, b) =>
    if numPartMatch a && numPartMatch b then some (a, b) else none
  | none => none

/-- Numeric value of a digit character. -/
def digitVal (c : Char) : Nat := c.toNat - '0'.toNat

/-- The natural number denoted by a digit string. -/
def natOfDigits (cs : List Char) : Nat :=
  cs.foldl (fun acc c => 10 * acc + digitVal c) 0

/-- `parseFloat` on a string of the shape the coordinate regex's capture
groups guarantee (optional sign, 1+ integer digits, optional `.` plus
fraction digits), with exact decimal semantics. -/
def parseDec (cs : List Char) : ℚ :=
  let (sign, cs) : ℚ × List Char := match cs with
    | '-' :: rest => (-1, rest)
    | '+' :: rest => (1, rest)
    | rest => (1, rest)
  let intPart := cs.takeWhile Char.isDigit
  let rest := cs.dropWhile Char.isDigit
  let fracPart := match rest with
    | '.' :: frac => frac.takeWhile Char.isDigit
    | _ => []
  sign * ((natOfDigits intPart : ℚ) +
    (natOfDigits fracPart : ℚ) / ((10 : ℚ) ^ fracPart.length))

/-- The value returned by a successful `Device.getRegion`. -/
structure Region where
  name : String
  latitude : ℚ
  longitude : ℚ
deriving DecidableEq, Repr

/-- `Device.getRegion`: an empty region name means "no region" and yields
`null`; otherwise `region.coordinates?.match(coords)` must succeed
(`assert(match, "Unexpected coordinate format")` — an absent coordinate
string fails the assertion exactly like a non-matching one), and the two
capture groups are `parseFloat`ed. -/
def Device.getRegion (d : DeviceData) : Except Err (Option Region) :=
  if d.region.string = "" then .ok none
  else
    match d.region.coordinates with
    | none => .error (.assertion "Unexpected coordinate format")
    | some c =>
      match coordsMatch c.data with
      | none => .error (.assertion "Unexpected coordinate format")
      | some (a, b) =>
        .ok (some { name := d.region.string,
                    latitude := parseDec a, longitude := parseDec b })

/-- `Device.update`: re-fetch by serial number; throw unless exactly one
device is returned; only then replace the snapshot with the fetched
record. -/
def Device.update (d : DeviceData) (t : Transport) :
    StateOutcome DeviceData Unit :=
  let o := API.getDevices { serialNumber := some d.serialNumber } t
  match o.result with
  | .error e => ⟨o.calls, .error e, d⟩
  | .ok devices =>
    match devices with
    | [dev] => ⟨o.calls, .ok (), dev⟩
    | _ =>
      ⟨o.calls,
       .error (.generic
         ("Expected 1 device, got " ++ toString devices.length)), d⟩

/-- `Device.setOwner`: `assert(user.id !== 0)` (use `removeOwner` instead);
then a remote write only when the new owner differs from the snapshot's. -/
def Device.setOwner (d : DeviceData) (userId : Int) (t : Transport) :
    StateOutcome DeviceData Unit :=
  if userId = 0 then
    ⟨[],
     .error (.assertion
       "Using ID 0 would remove the owner. If this is intentional, use `Device.removeOwner()`"),
     d⟩
  else if d.owner.id ≠ userId then
    let o := API.setDeviceOwner d.UDID userId t
    ⟨o.calls, o.result.map (fun _ => ()), d⟩
  else ⟨[], .ok (), d⟩

/-- `Device.removeOwner`: a remote write (owner 0) only when the snapshot has
an owner. -/
def Device.removeOwner (d : DeviceData) (t : Transport) :
    StateOutcome DeviceData Unit :=
  if d.owner.id ≠ 0 then
    let o := API.setDeviceOwner d.UDID 0 t
    ⟨o.calls, o.result.map (fun _ => ()), d⟩
  else ⟨[], .ok (), d⟩

/-- `Device.getApps`: `Promise.all` of `api.getApps()` and
`api.getDevice(udid, { includeApps: true })` (both requests are issued; on a
double failure the surfaced rejection is the first to settle, modelled
left-biased), with `suppressAPIError([], e)` around the pair; a device-detail
record without the `apps` field then throws; otherwise the app list is
filtered by bundle-identifier membership.  (The source message quotes the
word apps in single quotation marks; they are elided here.) -/
def Device.getApps (d : DeviceData) (t : Transport) :
    StateOutcome DeviceData (List AppData) :=
  let o1 := API.getApps t
  let o2 := API.getDevice d.UDID { includeApps := some true } t
  let calls := o1.calls ++ o2.calls
  let combined : Except Err (List AppData × DeviceData) :=
    match o1.result, o2.result with
    | .error e, _ => .error e
    | .ok _, .error e => .error e
    | .ok apps, .ok dev => .ok (apps, dev)
  match combined with
  | .error e => ⟨calls, suppressAPIError [] e, d⟩
  | .ok (apps, myAppData) =>
    match myAppData.apps with
    | none =>
      ⟨calls, .error (.generic "Missing apps property in returned apps"), d⟩
    | some deviceApps =>
      let myAppIdentifiers := deviceApps.map (fun app => app.identifier)
      let myApps := apps.filter
        (fun app => myAppIdentifiers.contains app.bundleId)
      ⟨calls, .ok myApps, d⟩

/-- `Device.setAssetTag`: skip the write when the snapshot already holds the
value; otherwise `updateDevice(udid, { assetTag: text })`. -/
def Device.setAssetTag (d : DeviceData) (text : String) (t : Transport) :
    StateOutcome DeviceData Unit :=
  if d.assetTag ≠ text then
    let o := API.updateDevice d.UDID { assetTag := some text } t
    ⟨o.calls, o.result.map (fun _ => ()), d⟩
  else ⟨[], .ok (), d⟩

/-- `Device.setNotes`: skip the write when the snapshot already holds the
value; otherwise `updateDevice(udid, { notes: text })`. -/
def Device.setNotes (d : DeviceData) (text : String) (t : Transport) :
    StateOutcome DeviceData Unit :=
  if d.notes ≠ text then
    let o := API.updateDevice d.UDID { notes := some text } t
    ⟨o.calls, o.result.map (fun _ => ()), d⟩
  else ⟨[], .ok (), d⟩

/-- `Device.setLocation`: skip the write when the snapshot already holds the
location; otherwise `moveDevice(udid, location.id)` (no options). -/
def Device.setLocation (d : DeviceData) (locationId : Int) (t : Transport) :
    StateOutcome DeviceData Unit :=
  if d.locationId ≠ locationId then
    let o := API.moveDevice d.UDID locationId none t
    ⟨o.calls, o.result.map (fun _ => ()), d⟩
  else ⟨[], .ok (), d⟩

/-- `App.update` (src/internal/app.ts): `this.#data = await
this.#api.getApp(this.#data.id)` — the snapshot is replaced wholesale by the
fetched record; on error it is untouched. -/
def App.update (a : AppData) (t : Transport) : StateOutcome AppData Unit :=
  let o := API.getApp a.id t
  match o.result with
  | .error e => ⟨o.calls, .error e, a⟩
  | .ok newData => ⟨o.calls, .ok (), newData⟩

/-- A transport whose responses are never needed or always acknowledge. -/
def t0 : Transport := fun _ => .ok .ack

/-- A concrete device snapshot used to instantiate the theorems. -/
def baseDevice : DeviceData :=
  { UDID := "aa11", locationId := 5, serialNumber := "C02XL0GYJGH5",
    name := "iPad", isManaged := true, isSupervised := false,
    assetTag := "tag-1", notes := "a note",
    owner := { id := 5, locationId := 5, name := "Sam" },
    groups := ["Class"], region := { string := "", coordinates := none },
    apps := none }

/-- `baseDevice` with a named region and a well-formed coordinate string. -/
def regionDevice : DeviceData :=
  { baseDevice with
    region := { string := "Library", coordinates := some "12.34,-56.78" } }

/-- `baseDevice` with a named region and a malformed coordinate string. -/
def badRegionDevice : DeviceData :=
  { baseDevice with
    region := { string := "Library", coordinates := some "garbage" } }

/-- `baseDevice` with a named region but no coordinate string at all. -/
def noCoordsDevice : DeviceData :=
  { baseDevice with region := { string := "Library", coordinates := none } }

/-- `baseDevice` without an owner (`owner.id = 0` is the sentinel). -/
def unownedDevice : DeviceData :=
  { baseDevice with owner := { id := 0, locationId := 5, name := "" } }

/-- A record with the same serial number but a different UDID, as a remote
service could return it. -/
def swappedDevice : DeviceData := { baseDevice with UDID := "bb22" }

/-- A transport answering every device-list fetch with `swappedDevice`. -/
def tSwap : Transport := fun _ => .ok (.devices [swappedDevice])

/-- A concrete app record. -/
def sampleApp : AppData :=
  { id := 7, locationId := 5, adamId := some 123,
    bundleId := "com.apple.pages", isBook := false, isDeleted := none,
    name := "Pages", version := "1.0" }

/-- `baseDevice` as returned by `GET /devices/:udid?includeApps=true`, with
an embedded app list naming `sampleApp`'s bundle identifier. -/
def appsDevice : DeviceData :=
  { baseDevice with
    apps := some [{ name := "Pages", identifier := "com.apple.pages",
                    version := "1.0", vendor := "Apple", icon := "i" }] }

/-- Transport where the app-list fetch fails with a 500 `APIError` and the
device-detail fetch succeeds. -/
def tAppsFail : Transport := fun req =>
  if req.path = "apps" then .error (.api 500) else .ok (.device appsDevice)

/-- Transport where the app-list fetch succeeds and the device-detail fetch
fails with an `AuthError`. -/
def tDetailFail : Transport := fun req =>
  if req.path = "apps" then .ok (.apps [sampleApp]) else .error .auth

/-- Transport where both fetches succeed but the device-detail record lacks
the `apps` field. -/
def tNoAppsField : Transport := fun req =>
  if req.path = "apps" then .ok (.apps [sampleApp])
  else .ok (.device baseDevice)

theorem moveDevices_invalid_aux (devices : List String) (locationId : Int)
    (options : Option APIMoveDevicesOptions) (t : Transport)
    (h : devices = [] ∨ 20 < devices.length ∨ isValidID locationId = false ∨
      ∃ u ∈ devices, isValidUDID u = false) :
    (API.moveDevices devices locationId options t).calls = [] ∧
      ∃ msg, (API.moveDevices devices locationId options t).result =
        Except.error (.assertion msg) := by
  by_cases h1 : isValidID locationId = true
  · by_cases h2 : devices.length > 0
    · by_cases h3 : devices.length ≤ 20
      · have hbad : ∃ u ∈ devices, isValidUDID u = false := by
          rcases h with h | h | h | h
          · subst h; simp at h2
          · omega
          · rw [h1] at h; cases h
          · exact h
        obtain ⟨u, hu, huv⟩ := hbad
        have hsome : (devices.find? (fun u => !isValidUDID u)).isSome := by
          rw [List.find?_isSome]
          exact ⟨u, hu, by simp [huv]⟩
        obtain ⟨v, hv⟩ := Option.isSome_iff_exists.mp hsome
        simp [API.moveDevices, h1, h2, h3, hv, invalidUDIDErr]
      · simp [API.moveDevices, h1, h2, h3]
    · simp [API.moveDevices, h1, h2]
  · simp [API.moveDevices, h1, invalidIDErr]

theorem moveDevices_valid_aux (devices : List String) (locationId : Int)
    (options : Option APIMoveDevicesOptions) (t : Transport)
    (h0 : devices ≠ []) (h1 : devices.length ≤ 20)
    (h2 : isValidID locationId = true)
    (h3 : ∀ u ∈ devices, isValidUDID u = true) :
    (API.moveDevices devices locationId options t).calls =
      [moveDevicesRequest devices locationId options] := by
  have hlen : devices.length > 0 := List.length_pos.mpr h0
  have hf : devices.find? (fun u => !isValidUDID u) = none := by
    rw [List.find?_eq_none]
    intro x hx
    simp [h3 x hx]
  unfold API.moveDevices
  simp [h2, hlen, h1, hf, issue]

theorem jLookup_moveDevicesPayload_udids (locationId : Int)
    (udids : List String) (onlyDevice : Option Bool) :
    jLookup (moveDevicesPayload locationId udids onlyDevice) "udids" =
      some (.strArr udids) := by
  cases onlyDevice <;> simp [moveDevicesPayload, jLookup, List.find?]

/-- C1: `api.moveDevices(udids, locationId, options?)` fails with a fatal
assertion before any network request when `udids` is empty or longer than
20, when `locationId` is not a valid ID, or when any element is not a valid
UDID; with 1–20 valid UDIDs and a valid location ID it issues exactly the
one PUT `/devices/migrate` request, whose JSON body carries exactly those
UDIDs under the `udids` key. -/
theorem moveDevices_validates_before_network (devices : List String)
    (locationId : Int) (options : Option APIMoveDevicesOptions)
    (t : Transport) :
    ((devices = [] ∨ 20 < devices.length ∨ isValidID locationId = false ∨
        ∃ u ∈ devices, isValidUDID u = false) →
      (API.moveDevices devices locationId options t).calls = [] ∧
        ∃ msg, (API.moveDevices devices locationId options t).result =
          Except.error (.assertion msg)) ∧
    (devices ≠ [] → devices.length ≤ 20 → isValidID locationId = true →
      (∀ u ∈ devices, isValidUDID u = true) →
      (API.moveDevices devices locationId options t).calls =
        [moveDevicesRequest devices locationId options] ∧
        (moveDevicesRequest devices locationId options).body =
          some (moveDevicesPayload locationId devices
            (options.bind (fun o => o.onlyDevice))) ∧
        jLookup (moveDevicesPayload locationId devices
            (options.bind (fun o => o.onlyDevice))) "udids" =
          some (.strArr devices)) := by
  constructor
  · exact moveDevices_invalid_aux devices locationId options t
  · intro h0 h1 h2 h3
    exact ⟨moveDevices_valid_aux devices locationId options t h0 h1 h2 h3,
      rfl, jLookup_moveDevicesPayload_udids _ _ _⟩

theorem moveDevices_validates_before_network_witness :
    (API.moveDevices [] 0 none t0).calls = [] ∧
      (API.moveDevices ["ab", "cd"] 3 none t0).calls =
        [moveDevicesRequest ["ab", "cd"] 3 none] := by
  constructor
  · exact ((moveDevices_validates_before_network [] 0 none t0).1
      (Or.inl rfl)).1
  · exact ((moveDevices_validates_before_network ["ab", "cd"] 3 none t0).2
      (by decide) (by decide) (by decide) (by decide)).1

/-- C7 (counterexample): `"X"` is not a valid UDID (`/^[0-9a-f\\-]+$/i`),
so `moveDevices(["X"], 0)` fails the UDID assertion before any request is
issued and no body at all is sent, contradicting the claim that it sends
`{udids: ["X"], locationId: 0}`. -/
theorem moveDevices_X_is_rejected :
    API.moveDevices ["X"] 0 none t0 =
      { calls := [], result := .error (.assertion "Invalid UDID: X") } := by
  decide

/-- C7 (amended): for a valid UDID — `"-"`, the one the repository test
uses — `moveDevices(["-"], 0)` sends the JSON body
`{locationId: 0, udids: ["-"]}` with no `onlyDevice` key, and
`moveDevices(["-"], 0, {onlyDevice: true})` sends the same body plus
`onlyDevice: true`. -/
theorem moveDevices_remaps_parameters (t : Transport) :
    (API.moveDevices ["-"] 0 none t).calls =
      [{ method := "PUT", path := "devices/migrate",
         body := some [("locationId", .num 0), ("udids", .strArr ["-"])] }] ∧
    jLookup [("locationId", JVal.num 0), ("udids", JVal.strArr ["-"])]
      "onlyDevice" = none ∧
    (API.moveDevices ["-"] 0 (some { onlyDevice := some true }) t).calls =
      [{ method := "PUT", path := "devices/migrate",
         body := some [("locationId", .num 0), ("udids", .strArr ["-"]),
                       ("onlyDevice", .bool true)] }] := by
  refine ⟨?_, by decide, ?_⟩
  · rw [moveDevices_valid_aux ["-"] 0 none t (by decide) (by decide)
      (by decide) (by decide)]
    decide
  · rw [moveDevices_valid_aux ["-"] 0 (some { onlyDevice := some true }) t
      (by decide) (by decide) (by decide) (by decide)]
    decide

/-- C2 (counterexample): with `includeApps: false`, `GET /devices/:udid`
attaches no query at all — the parameter is omitted, not sent as the literal
string `"false"`. -/
theorem getDevice_includeApps_false_omitted :
    (API.getDevice "c0ffee" { includeApps := some false } t0).calls =
       [{ method := "GET", path := "devices/c0ffee", query := none,
          body := none }] := by
  decide

/-- C2 (amended): `toSearchParams` keeps exactly the entries that are
neither `null` nor `undefined`, serializing booleans as `"0"`/`"1"`, and
returns no query at all when nothing remains; the `includeApps` parameter of
`GET /devices/:udid` is sent as the literal string `"true"` when the option
is `true` and omitted entirely otherwise (also when it is `false`). -/
theorem query_parameter_serialization (l : List (String × QueryVal)) :
    (toSearchParams l = none ↔ l.filter (fun p => !p.2.isNullish) = []) ∧
    (∀ res, toSearchParams l = some res →
      res = (l.filter (fun p => !p.2.isNullish)).map
        (fun p => (p.1, p.2.serialize))) ∧
    (∀ b, QueryVal.serialize (.bool b) = if b then "1" else "0") ∧
    (∀ (udid : String) (opts : APIGetDeviceOptions) (t : Transport),
      isValidUDID udid = true →
      (API.getDevice udid opts t).calls =
        [{ method := "GET", path := "devices/" ++ udid,
           query := if opts.includeApps = some true
             then some [("includeApps", "true")] else none,
           body := none }]) := by
  refine ⟨?_, ?_, by intro b; rfl, ?_⟩
  · rcases hf : l.filter (fun p => !p.2.isNullish) with _ | ⟨x, xs⟩ <;>
      simp [toSearchParams, hf]
  · intro res hres
    unfold toSearchParams at hres
    rcases hf : l.filter (fun p => !p.2.isNullish) with _ | ⟨x, xs⟩ <;>
      rw [hf] at hres <;> simp at hres
    rw [hf, ← hres]
    simp
  · intro udid opts t hu
    unfold API.getDevice
    rw [hu]
    obtain ⟨io⟩ := opts
    cases io with
    | none => simp [issue, toSearchParams, QueryVal.isNullish]
    | some b =>
      cases b <;>
        simp [issue, toSearchParams, QueryVal.isNullish, QueryVal.serialize]

theorem query_parameter_serialization_witness :
    toSearchParams [("a", QueryVal.null), ("b", QueryVal.undefined)] = none ∧
    [("hasOwner", "1"), ("inTrash", "0"), ("owner", "4")] =
      ([("hasOwner", QueryVal.bool true), ("inTrash", QueryVal.bool false),
        ("name", QueryVal.undefined), ("owner", QueryVal.num 4)].filter
          (fun p => !p.2.isNullish)).map (fun p => (p.1, p.2.serialize)) ∧
    (API.getDevice "c0ffee" { includeApps := some true } t0).calls =
      [{ method := "GET", path := "devices/c0ffee",
         query := some [("includeApps", "true")], body := none }] := by
  refine ⟨?_, ?_, ?_⟩
  · exact (query_parameter_serialization
      [("a", QueryVal.null), ("b", QueryVal.undefined)]).1.mpr (by decide)
  · exact (query_parameter_serialization
      [("hasOwner", QueryVal.bool true), ("inTrash", QueryVal.bool false),
       ("name", QueryVal.undefined), ("owner", QueryVal.num 4)]).2.1 _ (by decide)
  · have h := (query_parameter_serialization []).2.2.2 "c0ffee"
      { includeApps := some true } t0 (by decide)
    rw [h]
    decide

/-- C3 (counterexample): nothing in `update()` checks the identity field —
the snapshot is replaced wholesale by whatever record the serial-number
lookup returns, so a (schema-valid) response bearing a different UDID
changes `d.udid` across a successful `update()`. -/
theorem update_can_change_udid :
    (Device.update baseDevice tSwap).result = .ok () ∧
      (Device.update baseDevice tSwap).state.UDID ≠ baseDevice.UDID := by
  decide

/-- C3 (amended): `update()` replaces the snapshot with the fetched record,
so the identity field is unchanged across a successful `update()` provided
the record returned by the lookup bears the same identity (`UDID` for
`Device`, `id` for `App`) — which the remote contract, but not the code,
guarantees. -/
theorem update_preserves_identity_of_matching_fetch :
    (∀ (d : DeviceData) (t : Transport) (dev : DeviceData),
      (API.getDevices { serialNumber := some d.serialNumber } t).result =
        .ok [dev] →
      dev.UDID = d.UDID →
      (Device.update d t).result = .ok () ∧
        (Device.update d t).state.UDID = d.UDID) ∧
    (∀ (a : AppData) (t : Transport) (fetched : AppData),
      (API.getApp a.id t).result = .ok fetched →
      fetched.id = a.id →
      (App.update a t).result = .ok () ∧ (App.update a t).state.id = a.id) := by
  constructor
  · intro d t dev hres hid
    simp only [Device.update, hres]
    simp [hid]
  · intro a t fetched hres hid
    simp only [App.update, hres]
    simp [hid]

theorem update_preserves_identity_of_matching_fetch_witness :
    (Device.update baseDevice (fun _ => .ok (.devices [baseDevice]))).result =
        .ok () ∧
      (Device.update baseDevice
          (fun _ => .ok (.devices [baseDevice]))).state.UDID =
        baseDevice.UDID ∧
      (App.update sampleApp (fun _ => .ok (.app sampleApp))).state.id =
        sampleApp.id := by
  obtain ⟨hdev, happ⟩ := update_preserves_identity_of_matching_fetch
  obtain ⟨h1, h2⟩ := hdev baseDevice (fun _ => .ok (.devices [baseDevice]))
    baseDevice (by decide) (by decide)
  exact ⟨h1, h2,
    (happ sampleApp (fun _ => .ok (.app sampleApp)) sampleApp
      (by decide) (by decide)).2⟩

/-- C9: if the serial-number lookup of `update()` fails, or returns a list
whose length is not exactly 1, `update()` throws and the snapshot is left
unchanged; the snapshot is replaced exactly when one device is returned. -/
theorem update_atomic_on_error (d : DeviceData) (t : Transport) :
    (∀ e,
      (API.getDevices { serialNumber := some d.serialNumber } t).result =
        .error e →
      (Device.update d t).result = .error e ∧ (Device.update d t).state = d) ∧
    (∀ xs,
      (API.getDevices { serialNumber := some d.serialNumber } t).result =
        .ok xs →
      (xs.length ≠ 1 →
        (Device.update d t).result =
          .error (.generic ("Expected 1 device, got " ++ toString xs.length)) ∧
          (Device.update d t).state = d) ∧
      (∀ dev, xs = [dev] →
        (Device.update d t).result = .ok () ∧
          (Device.update d t).state = dev)) := by
  constructor
  · intro e he
    simp only [Device.update, he]
    simp
  · intro xs hxs
    constructor
    · intro hlen
      rcases xs with _ | ⟨x, _ | ⟨y, rest⟩⟩
      · simp only [Device.update, hxs]
        simp
      · exact absurd rfl hlen
      · simp only [Device.update, hxs]
        simp
    · intro dev hdev
      subst hdev
      simp only [Device.update, hxs]
      simp

theorem update_atomic_on_error_witness :
    (Device.update baseDevice (fun _ => .error .auth)).state = baseDevice ∧
      (Device.update baseDevice (fun _ => .ok (.devices []))).state =
        baseDevice ∧
      (Device.update baseDevice tSwap).state = swappedDevice := by
  refine ⟨?_, ?_, ?_⟩
  · exact ((update_atomic_on_error baseDevice (fun _ => .error .auth)).1
      .auth (by decide)).2
  · exact (((update_atomic_on_error baseDevice
      (fun _ => .ok (.devices []))).2 [] (by decide)).1 (by decide)).2
  · exact (((update_atomic_on_error baseDevice tSwap).2 [swappedDevice]
      (by decide)).2 swappedDevice rfl).2

/-- C4: if either underlying call of `Device.getApps` — the app-list fetch
or the device-detail fetch with apps included — fails with an
`APIError`-class failure, `getApps()` returns `[]` instead of throwing; if
both calls validate but the device-detail record lacks the `apps` field,
`getApps()` throws a fatal error. -/
theorem getApps_suppresses_api_errors (d : DeviceData) (t : Transport) :
    (∀ e, (API.getApps t).result = .error e → e.isAPIErrorClass = true →
      (Device.getApps d t).result = .ok []) ∧
    (∀ apps e, (API.getApps t).result = .ok apps →
      (API.getDevice d.UDID { includeApps := some true } t).result =
        .error e →
      e.isAPIErrorClass = true →
      (Device.getApps d t).result = .ok []) ∧
    (∀ apps dev, (API.getApps t).result = .ok apps →
      (API.getDevice d.UDID { includeApps := some true } t).result =
        .ok dev →
      dev.apps = none →
      (Device.getApps d t).result =
        .error (.generic "Missing apps property in returned apps")) := by
  refine ⟨?_, ?_, ?_⟩
  · intro e he hclass
    simp only [Device.getApps, he]
    simp [suppressAPIError, hclass]
  · intro apps e happs hdev hclass
    simp only [Device.getApps, happs, hdev]
    simp [suppressAPIError, hclass]
  · intro apps dev happs hdev hnone
    simp only [Device.getApps, happs, hdev, hnone]

theorem getApps_suppresses_api_errors_witness :
    (Device.getApps baseDevice tAppsFail).result = .ok [] ∧
      (Device.getApps baseDevice tDetailFail).result = .ok [] ∧
      (Device.getApps baseDevice tNoAppsField).result =
        .error (.generic "Missing apps property in returned apps") := by
  refine ⟨?_, ?_, ?_⟩
  · exact (getApps_suppresses_api_errors baseDevice tAppsFail).1
      (.api 500) (by decide) (by decide)
  · exact (getApps_suppresses_api_errors baseDevice tDetailFail).2.1
      [sampleApp] .auth (by decide) (by decide) (by decide)
  · exact (getApps_suppresses_api_errors baseDevice tNoAppsField).2.2
      [sampleApp] baseDevice (by decide) (by decide) (by decide)

theorem parseDec_12_34 : parseDec "12.34".data = 12.34 := by
  have h : parseDec "12.34".data =
      1 * (((12 : ℕ) : ℚ) + ((34 : ℕ) : ℚ) / (10 : ℚ) ^ (2 : ℕ)) := rfl
  rw [h]
  norm_num

theorem parseDec_neg_56_78 : parseDec "-56.78".data = -56.78 := by
  have h : parseDec "-56.78".data =
      -1 * (((56 : ℕ) : ℚ) + ((78 : ℕ) : ℚ) / (10 : ℚ) ^ (2 : ℕ)) := rfl
  rw [h]
  norm_num

/-- C5: `getRegion()` returns `null` when the snapshot region name is empty;
when the name is non-empty and the coordinate string matches the regex
`^([+-]?\d{1,3}(\.\d{1,15})?),([+-]?\d{1,3}(\.\d{1,15})?)$` it returns the
name with the two parsed numbers; when the name is non-empty and the present
coordinate string does not match, it fails the fatal assertion. -/
theorem getRegion_parses_coordinates (d : DeviceData) :
    (d.region.string = "" → Device.getRegion d = .ok none) ∧
    (∀ s a b, d.region.string ≠ "" → d.region.coordinates = some s →
      coordsMatch s.data = some (a, b) →
      Device.getRegion d =
        .ok (some { name := d.region.string,
                    latitude := parseDec a, longitude := parseDec b })) ∧
    (∀ s, d.region.string ≠ "" → d.region.coordinates = some s →
      coordsMatch s.data = none →
      Device.getRegion d =
        .error (.assertion "Unexpected coordinate format")) := by
  refine ⟨?_, ?_, ?_⟩
  · intro h
    simp [Device.getRegion, h]
  · intro s a b hname hc hm
    simp [Device.getRegion, hname, hc, hm]
  · intro s hname hc hm
    simp [Device.getRegion, hname, hc, hm]

theorem getRegion_parses_coordinates_witness :
    Device.getRegion regionDevice =
        .ok (some { name := "Library", latitude := 12.34,
                    longitude := -56.78 }) ∧
      Device.getRegion baseDevice = .ok none ∧
      Device.getRegion badRegionDevice =
        .error (.assertion "Unexpected coordinate format") := by
  refine ⟨?_, ?_, ?_⟩
  · have h := (getRegion_parses_coordinates regionDevice).2.1
      "12.34,-56.78" "12.34".data "-56.78".data
      (by decide) (by decide) (by decide)
    rw [h, parseDec_12_34, parseDec_neg_56_78]
    rfl
  · exact (getRegion_parses_coordinates baseDevice).1 rfl
  · exact (getRegion_parses_coordinates badRegionDevice).2.2
      "garbage" (by decide) (by decide) (by decide)

/-- C10: a non-empty region name with the optional coordinate string absent
fails `getRegion()`'s assertion exactly like an unparseable string —
`region.coordinates?.match(coords)` is `undefined`, so
`assert(match, "Unexpected coordinate format")` throws. -/
theorem getRegion_absent_coordinates_fatal (d : DeviceData)
    (hname : d.region.string ≠ "") (hc : d.region.coordinates = none) :
    Device.getRegion d = .error (.assertion "Unexpected coordinate format") := by
  simp [Device.getRegion, hname, hc]

theorem getRegion_absent_coordinates_fatal_witness :
    noCoordsDevice.region.string ≠ "" ∧
      Device.getRegion noCoordsDevice =
        .error (.assertion "Unexpected coordinate format") :=
  ⟨by decide, getRegion_absent_coordinates_fatal noCoordsDevice
    (by decide) (by decide)⟩

/-- C6: `setOwner({id: 0})` fails the sentinel assertion with no network
call; `removeOwner()` makes zero network calls when the snapshot owner id is
already 0, and otherwise behaves exactly as
`setDeviceOwner(device.UDID, 0)`. -/
theorem owner_sentinel_contract (d : DeviceData) (t : Transport) :
    ((Device.setOwner d 0 t).calls = [] ∧
      ∃ msg, (Device.setOwner d 0 t).result =
        Except.error (.assertion msg)) ∧
    (d.owner.id = 0 →
      Device.removeOwner d t = { calls := [], result := .ok (), state := d }) ∧
    (d.owner.id ≠ 0 →
      (Device.removeOwner d t).calls = (API.setDeviceOwner d.UDID 0 t).calls ∧
      (Device.removeOwner d t).result =
        (API.setDeviceOwner d.UDID 0 t).result.map (fun _ => ())) := by
  refine ⟨?_, ?_, ?_⟩
  · simp [Device.setOwner]
  · intro h
    simp [Device.removeOwner, h]
  · intro h
    simp [Device.removeOwner, h]

theorem owner_sentinel_contract_witness :
    (Device.setOwner baseDevice 0 t0).calls = [] ∧
      Device.removeOwner unownedDevice t0 =
        { calls := [], result := .ok (), state := unownedDevice } ∧
      (Device.removeOwner baseDevice t0).calls =
        (API.setDeviceOwner baseDevice.UDID 0 t0).calls := by
  refine ⟨?_, ?_, ?_⟩
  · exact (owner_sentinel_contract baseDevice t0).1.1
  · exact (owner_sentinel_contract unownedDevice t0).2.1 (by decide)
  · exact ((owner_sentinel_contract baseDevice t0).2.2 (by decide)).1

/-- C8 (counterexample): `setLocation` with a location id that differs from
the snapshot but fails `assertValidID` issues no remote write at all — the
validation assertion fires before the network call — contradicting the
claim that a differing value always issues exactly one remote write. -/
theorem setLocation_invalid_id_writes_nothing :
    baseDevice.locationId ≠ -1 ∧
      (Device.setLocation baseDevice (-1) t0).calls = [] ∧
      (Device.setLocation baseDevice (-1) t0).result =
        .error invalidIDErr := by
  decide

/-- C8 (amended): each mutation method `setAssetTag` / `setNotes` /
`setLocation` makes no network call when the value already equals the
snapshot field; when it differs and the arguments pass the API surface
validation (a valid device UDID, and for `setLocation` a valid location id)
it issues exactly one remote write; and in every case the local snapshot is
left unmodified. -/
theorem setters_skip_equal_values (d : DeviceData) (v : String)
    (lid : Int) (t : Transport) :
    (d.assetTag = v →
      Device.setAssetTag d v t = { calls := [], result := .ok (), state := d }) ∧
    (d.notes = v →
      Device.setNotes d v t = { calls := [], result := .ok (), state := d }) ∧
    (d.locationId = lid →
      Device.setLocation d lid t =
        { calls := [], result := .ok (), state := d }) ∧
    (d.assetTag ≠ v → isValidUDID d.UDID = true →
      (Device.setAssetTag d v t).calls.length = 1) ∧
    (d.notes ≠ v → isValidUDID d.UDID = true →
      (Device.setNotes d v t).calls.length = 1) ∧
    (d.locationId ≠ lid → isValidUDID d.UDID = true → isValidID lid = true →
      (Device.setLocation d lid t).calls.length = 1) ∧
    (Device.setAssetTag d v t).state = d ∧
    (Device.setNotes d v t).state = d ∧
    (Device.setLocation d lid t).state = d := by
  refine ⟨?_, ?_, ?_, ?_, ?_, ?_, ?_, ?_, ?_⟩
  · intro h
    simp [Device.setAssetTag, h]
  · intro h
    simp [Device.setNotes, h]
  · intro h
    simp [Device.setLocation, h]
  · intro h hu
    simp [Device.setAssetTag, h, API.updateDevice, hu, issue]
  · intro h hu
    simp [Device.setNotes, h, API.updateDevice, hu, issue]
  · intro h hu hl
    simp [Device.setLocation, h, API.moveDevice, hu, hl, issue]
  · by_cases h : d.assetTag = v <;> simp [Device.setAssetTag, h]
  · by_cases h : d.notes = v <;> simp [Device.setNotes, h]
  · by_cases h : d.locationId = lid <;> simp [Device.setLocation, h]

theorem setters_skip_equal_values_witness :
    Device.setAssetTag baseDevice "tag-1" t0 =
        { calls := [], result := .ok (), state := baseDevice } ∧
      Device.setNotes baseDevice "a note" t0 =
        { calls := [], result := .ok (), state := baseDevice } ∧
      Device.setLocation baseDevice 5 t0 =
        { calls := [], result := .ok (), state := baseDevice } ∧
      (Device.setAssetTag baseDevice "tag-2" t0).calls.length = 1 ∧
      (Device.setNotes baseDevice "b note" t0).calls.length = 1 ∧
      (Device.setLocation baseDevice 6 t0).calls.length = 1 ∧
      (Device.setLocation baseDevice 6 t0).state = baseDevice := by
  have h := setters_skip_equal_values baseDevice "tag-1" 5 t0
  have h2 := setters_skip_equal_values baseDevice "tag-2" 6 t0
  have h3 := setters_skip_equal_values baseDevice "b note" 6 t0
  have h4 := setters_skip_equal_values baseDevice "a note" 5 t0
  exact ⟨h.1 (by decide), h4.2.1 (by decide), h.2.2.1 (by decide),
    h2.2.2.2.1 (by decide) (by decide),
    h3.2.2.2.2.1 (by decide) (by decide),
    h2.2.2.2.2.2.1 (by decide) (by decide) (by decide),
    h2.2.2.2.2.2.2.2.2⟩
